import Mathlib

/-!
# Impressa: the browser session controller of `static/js/main.js`

A shallow embedding of the page script.  The script is one `DOMContentLoaded`
callback that registers two form handlers and one socket handler over two
module variables (`token`, `websocket`) and six DOM elements.  Every handler
is an `async` function; each is split here at its `await`s into the part that
runs on the triggering event and the part that runs when the awaited
response has been parsed.
-/

namespace Impressa

/-! ## JavaScript values -/

/-- A JavaScript number as far as this script observes one: through
`ToBoolean` (is it zero) and through `ToString` (its decimal rendering in a
template literal).  JSON cannot produce `NaN`. -/
structure JSNum where
  isZero : Bool
  text : String
deriving DecidableEq

/-- The values a parsed JSON document is made of, plus `undefined`, which is
what reading a missing property yields. -/
inductive JSValue where
  | undefined
  | null
  | bool (b : Bool)
  | num (n : JSNum)
  | str (s : String)
  | arr (xs : List JSValue)
  | obj (fields : List (String × JSValue))

/-- The errors a handler of this script can end with. -/
inductive JSError where
  | typeError
  | syntaxError
deriving DecidableEq

mutual
/-- The `ToString` conversion applied by a template literal and by the DOM
string setters.  On an object it calls the `toString` method: a parsed
object inherits the one that gives `[object Object]`, unless it has an own
member called `toString`, which is never callable, and then the conversion
throws a `TypeError`. -/
def toStr : JSValue → Except JSError String
  | .undefined => .ok "undefined"
  | .null => .ok "null"
  | .bool true => .ok "true"
  | .bool false => .ok "false"
  | .num n => .ok n.text
  | .str s => .ok s
  | .arr xs => joinElems xs
  | .obj fields =>
    match fields.lookup "toString" with
    | some _ => .error .typeError
    | none => .ok "[object Object]"
termination_by structural v => v
/-- The `Array.prototype.join(",")` conversion that `ToString` uses on an
array: `null` and `undefined` elements render as the empty string, every
other element by `ToString`, which may throw. -/
def joinElems : List JSValue → Except JSError String
  | [] => .ok ""
  | x :: rest =>
    match (match x with
      | .undefined => Except.ok ""
      | .null => Except.ok ""
      | v => toStr v) with
    | .error e => .error e
    | .ok first =>
      match joinElems rest with
      | .error e => .error e
      | .ok others =>
        .ok (first
          ++ (match rest with
            | [] => ""
            | _ :: _ => ",")
          ++ others)
termination_by structural xs => xs
end

/-- The `ToBoolean` conversion of an `if` condition. -/
def truthy : JSValue → Bool
  | .undefined => false
  | .null => false
  | .bool b => b
  | .num n => !n.isZero
  | .str s => decide (s ≠ "")
  | .arr _ => true
  | .obj _ => true

/-- Reading the property `key` of a value (`v.key`).  Reading from `null` or
`undefined` throws a `TypeError`; an object yields its own member or
`undefined`; every other value yields `undefined`, because none of the names
this script reads (`access_token`, `printers`, `print_job`, `printer_id`,
`id`, `name`, `status`) is defined on a built-in prototype. -/
def getProp (v : JSValue) (key : String) : Except JSError JSValue :=
  match v with
  | .undefined => .error .typeError
  | .null => .error .typeError
  | .obj fields => .ok ((fields.lookup key).getD .undefined)
  | _ => .ok .undefined

/-- Whether a value is an object with an own member called `key`. -/
def hasKey (v : JSValue) (key : String) : Bool :=
  match v with
  | .obj fields => (fields.lookup key).isSome
  | _ => false

/-! ## Requests, effects and the page -/

/-- The body handed to `fetch`: a literal text, or the `JSON.stringify`
serialisation of a value. -/
inductive Body where
  | text (s : String)
  | json (v : JSValue)

/-- A call of `fetch(url, {method, headers, body})`. -/
structure Request where
  method : String
  url : String
  headers : List (String × String)
  body : Option Body

/-- What a handler does to the world outside the page state. -/
inductive Effect where
  | preventDefault
  | fetch (req : Request)
  | alert (msg : String)
  | openSocket (url : String)

/-- An `option` element as the script fills it. -/
structure SelectOption where
  value : String
  text : String
deriving DecidableEq

/-- The two module variables and the parts of the document the script
writes. -/
structure Page where
  /-- The variable `token`. -/
  token : JSValue
  /-- The variable `websocket`: `none` is `null`, `some url` a socket object. -/
  websocket : Option String
  /-- The inline `display` style of `#main-container`. -/
  mainDisplay : String
  /-- The inline `display` style of `#login-form`. -/
  loginDisplay : String
  /-- The children of `#printers-list`, each by its markup. -/
  printersList : List String
  /-- The children of `#printer-select`. -/
  printerSelect : List SelectOption
  /-- The children of `#status-messages`, each by its text content. -/
  statusMessages : List String
  /-- Whether `#status-messages` is scrolled to its end. -/
  statusAtEnd : Bool

/-- The document as the markup delivers it, before the script has run. -/
structure Dom where
  mainDisplay : String
  loginDisplay : String
  printersList : List String
  printerSelect : List SelectOption
  statusMessages : List String
  statusAtEnd : Bool

/-- The page when `DOMContentLoaded` has fired: `token` and `websocket` are
`null`. -/
def Page.initial (d : Dom) : Page :=
  { token := .null, websocket := none, mainDisplay := d.mainDisplay,
    loginDisplay := d.loginDisplay, printersList := d.printersList,
    printerSelect := d.printerSelect, statusMessages := d.statusMessages,
    statusAtEnd := d.statusAtEnd }

/-! ## Handlers -/

/-- What one run of a handler leaves behind: the page, the effects in the
order they happened, each with the page as it was at that moment, and how
the run ended. -/
structure Outcome (α : Type) where
  page : Page
  log : List (Page × Effect)
  result : Except JSError α

/-- A piece of handler code. -/
def Handler (α : Type) : Type := Page → Outcome α

/-- A handler that only returns. -/
def Handler.ret {α : Type} (a : α) : Handler α :=
  fun p => { page := p, log := [], result := .ok a }

/-- Sequencing: a thrown error ends the handler, keeping what was done. -/
def Handler.seq {α β : Type} (m : Handler α) (f : α → Handler β) : Handler β :=
  fun p =>
    match m p with
    | { page := p1, log := l1, result := .error e } =>
      { page := p1, log := l1, result := .error e }
    | { page := p1, log := l1, result := .ok a } =>
      match f a p1 with
      | { page := p2, log := l2, result := r } =>
        { page := p2, log := l1 ++ l2, result := r }

instance : Monad Handler where
  pure := Handler.ret
  bind := Handler.seq

/-- Perform an effect. -/
def emit (e : Effect) : Handler Unit :=
  fun p => { page := p, log := [(p, e)], result := .ok () }

/-- Update the page. -/
def update (f : Page → Page) : Handler Unit :=
  fun p => { page := f p, log := [], result := .ok () }

/-- Read the page. -/
def readPage : Handler Page :=
  fun p => { page := p, log := [], result := .ok p }

/-- Evaluate an expression that may throw. -/
def eval {α : Type} (x : Except JSError α) : Handler α :=
  fun p => { page := p, log := [], result := x }

/-- The body of the login request, line 21:
the template literal with the two form values interpolated. -/
def loginBody (clientId password : String) : String :=
  "username=" ++ clientId ++ "&password=" ++ password ++ "&grant_type=password"

/-- The login form handler up to `await fetch('/login', ...)`. -/
def loginFormOnSubmit (clientId password : String) : Handler Unit := do
  emit .preventDefault
  emit (.fetch
    { method := "POST", url := "/login",
      headers := [("Content-Type", "application/x-www-form-urlencoded")],
      body := some (.text (loginBody clientId password)) })

/-- Calling an `async` function without awaiting it: it runs up to its first
`await`; an error in it rejects the promise it returns and does not reach the
caller. -/
def callAsync (h : Handler Unit) : Handler Unit :=
  fun p =>
    match h p with
    | { page := p1, log := l1, result := _ } => { page := p1, log := l1, result := .ok () }

/-- The function `fetchPrinters` up to `await fetch('/printers/', ...)`. -/
def fetchPrinters : Handler Unit := do
  let p ← readPage
  let tokenText ← eval (toStr p.token)
  emit (.fetch
    { method := "GET", url := "/printers/",
      headers := [("Authorization", "Bearer " ++ tokenText)],
      body := none })

/-- The function `addStatusMessage`. -/
def addStatusMessage (message : String) : Handler Unit := do
  update fun p => { p with statusMessages := p.statusMessages ++ [message] }
  update fun p => { p with statusAtEnd := true }

/-- The `onmessage` callback of the socket; `parsed` is what
`JSON.parse(event.data)` gives, `none` when it throws. -/
def websocketOnMessage (parsed : Option JSValue) : Handler Unit := do
  let data ← eval (match parsed with
    | some v => .ok v
    | none => .error .syntaxError)
  let printJob ← eval (getProp data "print_job")
  if truthy printJob then
    let printerId ← eval (getProp printJob "printer_id")
    let printerText ← eval (toStr printerId)
    addStatusMessage ("Received print job for printer: " ++ printerText)

/-- The function `connectWebSocket`. -/
def connectWebSocket : Handler Unit := do
  emit (.openSocket "ws://localhost:8000/ws")
  update fun p => { p with websocket := some "ws://localhost:8000/ws" }

/-- The login form handler from `const data = await response.json()` on. -/
def loginFormOnResponse (data : JSValue) : Handler Unit := do
  let accessToken ← eval (getProp data "access_token")
  if truthy accessToken then
    update fun p => { p with token := accessToken }
    update fun p => { p with mainDisplay := "block" }
    update fun p => { p with loginDisplay := "none" }
    callAsync fetchPrinters
    connectWebSocket
  else
    emit (.alert "Login failed")

/-- The markup assigned to `printerDiv.innerHTML`, lines 46 to 49. -/
def printerMarkup (name status : String) : String :=
  "\n                <h3>" ++ name ++ "</h3>\n                <p>Status: "
    ++ status ++ "</p>\n            "

/-- The callback passed to `forEach`, lines 44 to 55. -/
def renderPrinter (printer : JSValue) : Handler Unit := do
  let name ← eval (getProp printer "name")
  let nameText ← eval (toStr name)
  let status ← eval (getProp printer "status")
  let statusText ← eval (toStr status)
  update fun p =>
    { p with printersList := p.printersList ++ [printerMarkup nameText statusText] }
  let id ← eval (getProp printer "id")
  let optionValue ← eval (toStr id)
  let name2 ← eval (getProp printer "name")
  let optionText ← eval (toStr name2)
  update fun p =>
    { p with printerSelect := p.printerSelect ++ [{ value := optionValue, text := optionText }] }

/-- Running a callback over the elements of an array, in order. -/
def forEach (f : JSValue → Handler Unit) : List JSValue → Handler Unit
  | [] => pure ()
  | x :: rest => do
    f x
    forEach f rest

/-- The call `v.forEach(f)`: only an array has the method. -/
def callForEach (v : JSValue) (f : JSValue → Handler Unit) : Handler Unit :=
  match v with
  | .arr xs => forEach f xs
  | _ => eval (.error .typeError)

/-- The function `fetchPrinters` from `const data = await response.json()`
on. -/
def fetchPrintersOnResponse (data : JSValue) : Handler Unit := do
  update fun p => { p with printersList := [] }
  let printers ← eval (getProp data "printers")
  callForEach printers renderPrinter

/-- The print form handler up to `await fetch('/print-job/', ...)`; the three
arguments are the values of `#printer-select`, `#file-url` and `#copies`. -/
def printFormOnSubmit (printerId fileUrl copies : String) : Handler Unit := do
  emit .preventDefault
  let p ← readPage
  let tokenText ← eval (toStr p.token)
  emit (.fetch
    { method := "POST", url := "/print-job/",
      headers := [("Content-Type", "application/json"),
                  ("Authorization", "Bearer " ++ tokenText)],
      body := some (.json (.obj [("printer_id", .str printerId),
                                  ("file_url", .str fileUrl),
                                  ("copies", .str copies)])) })

/-- The print form handler from `const data = await response.json()` on. -/
def printFormOnResponse (data : JSValue) : Handler Unit := do
  let printJob ← eval (getProp data "print_job")
  let printerId ← eval (getProp printJob "printer_id")
  let printerText ← eval (toStr printerId)
  addStatusMessage ("Print job sent to printer: " ++ printerText)

/-! ## The controller as a transition system -/

/-- The events the controller reacts to.  A response event carries what
`await fetch(...)` followed by `await response.json()` gives: the parsed
body, or the error the promise rejects with. -/
inductive Event where
  | loginSubmit (clientId password : String)
  | loginResponse (body : Except JSError JSValue)
  | printersResponse (body : Except JSError JSValue)
  | printSubmit (printerId fileUrl copies : String)
  | printResponse (body : Except JSError JSValue)
  | streamMessage (parsed : Option JSValue)

/-- Resuming a suspended handler with the awaited value. -/
def resume (k : JSValue → Handler Unit) (body : Except JSError JSValue) :
    Handler Unit := do
  let data ← eval body
  k data

/-- The code that runs on an event. -/
def Event.handler : Event → Handler Unit
  | .loginSubmit clientId password => loginFormOnSubmit clientId password
  | .loginResponse body => resume loginFormOnResponse body
  | .printersResponse body => resume fetchPrintersOnResponse body
  | .printSubmit printerId fileUrl copies => printFormOnSubmit printerId fileUrl copies
  | .printResponse body => resume printFormOnResponse body
  | .streamMessage parsed => websocketOnMessage parsed

/-- The number of `fetch` calls to `url` in a log. -/
def issued (url : String) : List (Page × Effect) → Nat
  | [] => 0
  | (_, .fetch req) :: rest => (if req.url = url then 1 else 0) + issued url rest
  | _ :: rest => issued url rest

/-- The number of sockets opened in a log. -/
def opened : List (Page × Effect) → Nat
  | [] => 0
  | (_, .openSocket _) :: rest => 1 + opened rest
  | _ :: rest => opened rest

/-- The page together with what is outstanding around it: the sockets it has
opened and the requests whose handlers are suspended. -/
structure Sys where
  page : Page
  sockets : Nat
  awaitingLogin : Nat
  awaitingPrinters : Nat
  awaitingPrint : Nat

/-- The system when `DOMContentLoaded` has fired. -/
def Sys.initial (d : Dom) : Sys :=
  { page := Page.initial d, sockets := 0, awaitingLogin := 0,
    awaitingPrinters := 0, awaitingPrint := 0 }

/-- A form can be submitted at any time; a response needs a suspended handler
waiting for it; a stream message needs an open socket. -/
def Sys.enabled (s : Sys) : Event → Bool
  | .loginSubmit _ _ => true
  | .printSubmit _ _ _ => true
  | .loginResponse _ => decide (0 < s.awaitingLogin)
  | .printersResponse _ => decide (0 < s.awaitingPrinters)
  | .printResponse _ => decide (0 < s.awaitingPrint)
  | .streamMessage _ => decide (0 < s.sockets)

/-- A response resumes, and so uses up, one suspended handler. -/
def Sys.consume (s : Sys) : Event → Sys
  | .loginResponse _ => { s with awaitingLogin := s.awaitingLogin - 1 }
  | .printersResponse _ => { s with awaitingPrinters := s.awaitingPrinters - 1 }
  | .printResponse _ => { s with awaitingPrint := s.awaitingPrint - 1 }
  | _ => s

/-- One step: run the handler of an enabled event on the page and book what
it issued. -/
def step (s : Sys) (ev : Event) : Option (Sys × List (Page × Effect)) :=
  if s.enabled ev then
    let o := ev.handler s.page
    let s1 := s.consume ev
    some ({ page := o.page,
            sockets := s1.sockets + opened o.log,
            awaitingLogin := s1.awaitingLogin + issued "/login" o.log,
            awaitingPrinters := s1.awaitingPrinters + issued "/printers/" o.log,
            awaitingPrint := s1.awaitingPrint + issued "/print-job/" o.log },
          o.log)
  else none

/-- A run: the events handled one after the other, with the effects of all of
them in order. -/
def run : Sys → List Event → Option (Sys × List (Page × Effect))
  | s, [] => some (s, [])
  | s, ev :: rest =>
    match step s ev with
    | none => none
    | some (s1, l1) =>
      match run s1 rest with
      | none => none
      | some (s2, l2) => some (s2, l1 ++ l2)

/-- An authenticated request: the printer listing or a job submission. -/
def Effect.isAuthenticated : Effect → Bool
  | .fetch req => req.url == "/printers/" || req.url == "/print-job/"
  | _ => false

/-- Whether an effect is a call of `alert`. -/
def Effect.isAlert : Effect → Bool
  | .alert _ => true
  | _ => false

/-- Whether a login response is one the handler accepts: it has a truthy
`access_token`. -/
def loginSucceeds : Except JSError JSValue → Bool
  | .ok data =>
    match getProp data "access_token" with
    | .ok accessToken => truthy accessToken
    | .error _ => false
  | .error _ => false

/-- The number of accepted login responses among some events. -/
def successfulLogins : List Event → Nat
  | [] => 0
  | .loginResponse body :: rest =>
    (if loginSucceeds body then 1 else 0) + successfulLogins rest
  | _ :: rest => successfulLogins rest

/-! ## Notions used in the statements -/

/-- The page after an accepted login response. -/
def loggedIn (accessToken : JSValue) (p : Page) : Page :=
  { p with token := accessToken, mainDisplay := "block", loginDisplay := "none" }

/-- The member `key` of a value, `undefined` when there is none. -/
def member (v : JSValue) (key : String) : JSValue :=
  match getProp v key with
  | .ok w => w
  | .error _ => .undefined

/-- Whether properties can be read from a value: it is neither `null` nor
`undefined`. -/
def readable : JSValue → Bool
  | .undefined => false
  | .null => false
  | _ => true

/-- The string form of a value, empty when the conversion throws. -/
def textOf (v : JSValue) : String :=
  match toStr v with
  | .ok text => text
  | .error _ => ""

/-- Whether a value can be converted to a string. -/
def stringable (v : JSValue) : Bool :=
  match toStr v with
  | .ok _ => true
  | .error _ => false

/-- A printer entry that `renderPrinter` renders without an error. -/
def renderable (printer : JSValue) : Bool :=
  readable printer && stringable (member printer "name")
    && stringable (member printer "status") && stringable (member printer "id")

/-- The child that `renderPrinter` appends to `#printers-list`. -/
def printerEntry (printer : JSValue) : String :=
  printerMarkup (textOf (member printer "name")) (textOf (member printer "status"))

/-- The child that `renderPrinter` appends to `#printer-select`. -/
def printerOption (printer : JSValue) : SelectOption :=
  { value := textOf (member printer "id"), text := textOf (member printer "name") }

/-- A piece of handler code that has no effect outside the page and leaves
`token` alone. -/
def Silent {α : Type} (h : Handler α) : Prop :=
  ∀ p, (h p).log = [] ∧ (h p).page.token = p.token

/-- The printer-listing request as `fetchPrinters` issues it after a login
stored `accessToken`: none when the token cannot be converted to a string. -/
def listingLog (accessToken : JSValue) (p : Page) : List (Page × Effect) :=
  match toStr accessToken with
  | .ok tokenText =>
    [(loggedIn accessToken p, .fetch
      { method := "GET", url := "/printers/",
        headers := [("Authorization", "Bearer " ++ tokenText)],
        body := none })]
  | .error _ => []

/-- For each request in a log, its URL and its `Authorization` header. -/
def authHeaders : List (Page × Effect) → List (String × Option String)
  | [] => []
  | (_, .fetch req) :: rest => (req.url, req.headers.lookup "Authorization") :: authHeaders rest
  | _ :: rest => authHeaders rest

/-! ## The reference decoder for `application/x-www-form-urlencoded` -/

/-- Splitting a text at every occurrence of a separator. -/
def splitAt (sep : Char) : List Char → List (List Char)
  | [] => [[]]
  | c :: cs =>
    if c = sep then [] :: splitAt sep cs
    else
      match splitAt sep cs with
      | [] => [[c]]
      | w :: ws => (c :: w) :: ws

/-- The value of a hexadecimal digit. -/
def hexVal (c : Char) : Option Nat :=
  if '0' ≤ c ∧ c ≤ '9' then some (c.toNat - '0'.toNat)
  else if 'a' ≤ c ∧ c ≤ 'f' then some (c.toNat - 'a'.toNat + 10)
  else if 'A' ≤ c ∧ c ≤ 'F' then some (c.toNat - 'A'.toNat + 10)
  else none

/-- Decoding one name or value, with `skip` characters still to pass over:
`+` is a space and `%XY` is the character with code `XY` (exact for the
ASCII range). -/
def unescapeFrom : Nat → List Char → List Char
  | _, [] => []
  | skip + 1, _ :: cs => unescapeFrom skip cs
  | 0, c :: cs =>
    if c = '%' then
      match cs with
      | a :: b :: _ =>
        match hexVal a, hexVal b with
        | some x, some y => Char.ofNat (16 * x + y) :: unescapeFrom 2 cs
        | _, _ => '%' :: unescapeFrom 0 cs
      | _ => '%' :: unescapeFrom 0 cs
    else if c = '+' then ' ' :: unescapeFrom 0 cs
    else c :: unescapeFrom 0 cs

/-- Decoding one name or value. -/
def unescape (cs : List Char) : List Char :=
  unescapeFrom 0 cs

/-- One `name=value` piece: the name ends at the first `=`. -/
def decodePair (piece : List Char) : String × String :=
  (String.mk (unescape (piece.takeWhile (· ≠ '='))),
   String.mk (unescape ((piece.dropWhile (· ≠ '=')).drop 1)))

/-- What a server reading the body as `application/x-www-form-urlencoded`
obtains: the pieces between `&`, empty ones skipped, each decoded. -/
def decodeForm (body : String) : List (String × String) :=
  ((splitAt '&' body.data).filter (fun piece => !piece.isEmpty)).map decodePair

/-! ## Concrete documents and bodies -/

/-- A document with nothing in the three containers and no inline styles. -/
def blankDom : Dom :=
  { mainDisplay := "", loginDisplay := "", printersList := [], printerSelect := [],
    statusMessages := [], statusAtEnd := false }

/-- A login response body carrying the given access token. -/
def tokenDoc (accessToken : String) : JSValue :=
  .obj [("access_token", .str accessToken), ("token_type", .str "bearer")]

/-- A login response body of a server that refuses the credentials. -/
def refusalDoc : JSValue :=
  .obj [("detail", .str "Incorrect username or password")]

/-- A printer-list response body with one printer. -/
def onePrinterDoc : JSValue :=
  .obj [("printers", .arr [.obj [("id", .str "p1"), ("name", .str "Front desk"),
                                  ("status", .str "idle")]])]



/-! ## What each handler does -/

theorem loginFormOnSubmit_eq (clientId password : String) (p : Page) :
    loginFormOnSubmit clientId password p =
      { page := p,
        log := [(p, .preventDefault),
                (p, .fetch
                  { method := "POST", url := "/login",
                    headers := [("Content-Type", "application/x-www-form-urlencoded")],
                    body := some (.text (loginBody clientId password)) })],
        result := .ok () } := by
  rfl

theorem printFormOnSubmit_ok (printerId fileUrl copies tokenText : String) (p : Page)
    (h : toStr p.token = .ok tokenText) :
    printFormOnSubmit printerId fileUrl copies p =
      { page := p,
        log := [(p, .preventDefault),
                (p, .fetch
                  { method := "POST", url := "/print-job/",
                    headers := [("Content-Type", "application/json"),
                                ("Authorization", "Bearer " ++ tokenText)],
                    body := some (.json (.obj [("printer_id", .str printerId),
                                                ("file_url", .str fileUrl),
                                                ("copies", .str copies)])) })],
        result := .ok () } := by
  simp [printFormOnSubmit, bind, Handler.seq, eval, emit, readPage, h]

theorem printFormOnSubmit_error (printerId fileUrl copies : String) (e : JSError) (p : Page)
    (h : toStr p.token = .error e) :
    printFormOnSubmit printerId fileUrl copies p =
      { page := p, log := [(p, .preventDefault)], result := .error e } := by
  simp [printFormOnSubmit, bind, Handler.seq, eval, emit, readPage, h]

theorem loginFormOnResponse_error (data : JSValue) (e : JSError) (p : Page)
    (h : getProp data "access_token" = .error e) :
    loginFormOnResponse data p = { page := p, log := [], result := .error e } := by
  simp [loginFormOnResponse, bind, Handler.seq, eval, h]

theorem loginFormOnResponse_accept (data accessToken : JSValue) (p : Page)
    (h : getProp data "access_token" = .ok accessToken) (ht : truthy accessToken = true) :
    loginFormOnResponse data p =
      { page := { loggedIn accessToken p with websocket := some "ws://localhost:8000/ws" },
        log := listingLog accessToken p
          ++ [(loggedIn accessToken p, .openSocket "ws://localhost:8000/ws")],
        result := .ok () } := by
  cases hs : toStr accessToken <;>
    simp [loginFormOnResponse, bind, Handler.seq, eval, h, ht, update, fetchPrinters,
      connectWebSocket, emit, readPage, loggedIn, callAsync, listingLog, hs]

theorem loginFormOnResponse_reject (data accessToken : JSValue) (p : Page)
    (h : getProp data "access_token" = .ok accessToken) (ht : truthy accessToken = false) :
    loginFormOnResponse data p =
      { page := p, log := [(p, .alert "Login failed")], result := .ok () } := by
  simp [loginFormOnResponse, bind, Handler.seq, eval, h, ht, emit]

theorem printFormOnResponse_ok (data printJob printerId : JSValue) (printerText : String)
    (p : Page) (h1 : getProp data "print_job" = .ok printJob)
    (h2 : getProp printJob "printer_id" = .ok printerId)
    (h3 : toStr printerId = .ok printerText) :
    printFormOnResponse data p =
      { page := { p with
          statusMessages := p.statusMessages ++ ["Print job sent to printer: " ++ printerText],
          statusAtEnd := true },
        log := [], result := .ok () } := by
  simp [printFormOnResponse, addStatusMessage, bind, Handler.seq, eval, update, h1, h2, h3]

theorem printFormOnResponse_throw (data printJob printerId : JSValue) (e : JSError)
    (p : Page) (h1 : getProp data "print_job" = .ok printJob)
    (h2 : getProp printJob "printer_id" = .ok printerId)
    (h3 : toStr printerId = .error e) :
    printFormOnResponse data p = { page := p, log := [], result := .error e } := by
  simp [printFormOnResponse, bind, Handler.seq, eval, h1, h2, h3]

theorem websocketOnMessage_skip (data printJob : JSValue) (p : Page)
    (h1 : getProp data "print_job" = .ok printJob) (ht : truthy printJob = false) :
    websocketOnMessage (some data) p = { page := p, log := [], result := .ok () } := by
  simp [websocketOnMessage, bind, Handler.seq, eval, h1, ht, pure, Handler.ret]

theorem websocketOnMessage_act (data printJob printerId : JSValue) (printerText : String)
    (p : Page) (h1 : getProp data "print_job" = .ok printJob) (ht : truthy printJob = true)
    (h2 : getProp printJob "printer_id" = .ok printerId)
    (h3 : toStr printerId = .ok printerText) :
    websocketOnMessage (some data) p =
      { page := { p with
          statusMessages :=
            p.statusMessages ++ ["Received print job for printer: " ++ printerText],
          statusAtEnd := true },
        log := [], result := .ok () } := by
  simp [websocketOnMessage, bind, Handler.seq, eval, h1, ht, h2, h3, addStatusMessage, update]

theorem websocketOnMessage_throw (data printJob printerId : JSValue) (e : JSError)
    (p : Page) (h1 : getProp data "print_job" = .ok printJob) (ht : truthy printJob = true)
    (h2 : getProp printJob "printer_id" = .ok printerId)
    (h3 : toStr printerId = .error e) :
    websocketOnMessage (some data) p = { page := p, log := [], result := .error e } := by
  simp [websocketOnMessage, bind, Handler.seq, eval, h1, ht, h2, h3]

theorem getProp_of_truthy (v : JSValue) (key : String) (h : truthy v = true) :
    ∃ w, getProp v key = .ok w := by
  cases v <;> simp [getProp, truthy] at *

theorem getProp_readable (v : JSValue) (key : String) (h : readable v = true) :
    getProp v key = .ok (member v key) := by
  cases v <;> simp [getProp, member, readable] at *

theorem getProp_unreadable (v : JSValue) (key : String) (h : readable v = false) :
    getProp v key = .error .typeError := by
  cases v <;> simp [getProp, readable] at *

theorem toStr_stringable (v : JSValue) (h : stringable v = true) :
    toStr v = .ok (textOf v) := by
  unfold stringable at h
  unfold textOf
  cases hv : toStr v <;> simp [hv] at h ⊢

/-! ### Code that touches neither the token nor the outside -/

theorem Silent.seq {α β : Type} {m : Handler α} {f : α → Handler β}
    (hm : Silent m) (hf : ∀ a, Silent (f a)) : Silent (m >>= f) := by
  intro p
  have h1 := hm p
  simp only [bind, Handler.seq]
  cases hmp : m p with
  | mk p1 l1 r =>
    rw [hmp] at h1
    cases r with
    | error e => simpa using h1
    | ok a =>
      have h2 := hf a p1
      simp only at h1 ⊢
      exact ⟨by simp [h1.1, h2.1], h2.2.trans h1.2⟩

theorem Silent.eval {α : Type} (x : Except JSError α) : Silent (eval x) :=
  fun _ => ⟨rfl, rfl⟩

theorem Silent.ret {α : Type} (a : α) : Silent (pure a : Handler α) :=
  fun _ => ⟨rfl, rfl⟩

theorem Silent.update (f : Page → Page) (hf : ∀ p, (f p).token = p.token) :
    Silent (update f) :=
  fun p => ⟨rfl, hf p⟩

theorem addStatusMessage_silent (message : String) : Silent (addStatusMessage message) :=
  Silent.seq (Silent.update _ fun _ => rfl) fun _ => Silent.update _ fun _ => rfl

theorem renderPrinter_silent (printer : JSValue) : Silent (renderPrinter printer) := by
  unfold renderPrinter
  refine Silent.seq (Silent.eval _) fun _ => ?_
  refine Silent.seq (Silent.eval _) fun _ => ?_
  refine Silent.seq (Silent.eval _) fun _ => ?_
  refine Silent.seq (Silent.eval _) fun _ => ?_
  refine Silent.seq (Silent.update _ fun _ => rfl) fun _ => ?_
  refine Silent.seq (Silent.eval _) fun _ => ?_
  refine Silent.seq (Silent.eval _) fun _ => ?_
  refine Silent.seq (Silent.eval _) fun _ => ?_
  refine Silent.seq (Silent.eval _) fun _ => ?_
  exact Silent.update _ fun _ => rfl

theorem forEach_silent (f : JSValue → Handler Unit) (hf : ∀ x, Silent (f x))
    (xs : List JSValue) : Silent (forEach f xs) := by
  induction xs with
  | nil => exact Silent.ret ()
  | cons x rest ih =>
    unfold forEach
    exact Silent.seq (hf x) fun _ => ih

theorem fetchPrintersOnResponse_silent (data : JSValue) :
    Silent (fetchPrintersOnResponse data) := by
  unfold fetchPrintersOnResponse
  refine Silent.seq (Silent.update _ fun _ => rfl) fun _ => ?_
  refine Silent.seq (Silent.eval _) fun printers => ?_
  unfold callForEach
  split
  · exact forEach_silent _ renderPrinter_silent _
  · exact Silent.eval _

theorem printFormOnResponse_silent (data : JSValue) : Silent (printFormOnResponse data) := by
  unfold printFormOnResponse
  refine Silent.seq (Silent.eval _) fun _ => ?_
  refine Silent.seq (Silent.eval _) fun _ => ?_
  refine Silent.seq (Silent.eval _) fun _ => ?_
  exact addStatusMessage_silent _

theorem websocketOnMessage_silent (parsed : Option JSValue) :
    Silent (websocketOnMessage parsed) := by
  unfold websocketOnMessage
  refine Silent.seq (Silent.eval _) fun _ => ?_
  refine Silent.seq (Silent.eval _) fun printJob => ?_
  split
  · refine Silent.seq (Silent.eval _) fun _ => ?_
    refine Silent.seq (Silent.eval _) fun _ => ?_
    exact addStatusMessage_silent _
  · exact Silent.ret _

theorem resume_silent (k : JSValue → Handler Unit) (hk : ∀ data, Silent (k data))
    (body : Except JSError JSValue) : Silent (resume k body) := by
  unfold resume
  exact Silent.seq (Silent.eval _) hk

/-! ### Rendering a well-formed printer list -/

theorem renderPrinter_ok (printer : JSValue) (p : Page) (h : renderable printer = true) :
    renderPrinter printer p =
      { page := { p with
          printersList := p.printersList ++ [printerEntry printer],
          printerSelect := p.printerSelect ++ [printerOption printer] },
        log := [], result := .ok () } := by
  simp only [renderable, Bool.and_eq_true] at h
  obtain ⟨⟨⟨hr, hn⟩, hs⟩, hi⟩ := h
  simp [renderPrinter, bind, Handler.seq, eval, update, getProp_readable _ _ hr,
    toStr_stringable _ hn, toStr_stringable _ hs, toStr_stringable _ hi,
    printerEntry, printerOption]

theorem forEach_renderPrinter_ok (xs : List JSValue) (p : Page)
    (h : ∀ x ∈ xs, renderable x = true) :
    forEach renderPrinter xs p =
      { page := { p with
          printersList := p.printersList ++ xs.map printerEntry,
          printerSelect := p.printerSelect ++ xs.map printerOption },
        log := [], result := .ok () } := by
  induction xs generalizing p with
  | nil => simp [forEach, pure, Handler.ret]
  | cons x rest ih =>
    have hx : renderable x = true := h x (List.mem_cons_self _ _)
    have hr : ∀ y ∈ rest, renderable y = true := fun y hy => h y (List.mem_cons_of_mem _ hy)
    simp [forEach, bind, Handler.seq, renderPrinter_ok _ _ hx, ih _ hr]

/-- What `fetchPrinters` does with a well-formed response: the display area
holds exactly the entries of the response, in order; the selection control
holds its former options followed by one option for each entry. -/
theorem fetchPrintersOnResponse_ok (data : JSValue) (xs : List JSValue) (p : Page)
    (hd : getProp data "printers" = .ok (.arr xs)) (h : ∀ x ∈ xs, renderable x = true) :
    fetchPrintersOnResponse data p =
      { page := { p with
          printersList := xs.map printerEntry,
          printerSelect := p.printerSelect ++ xs.map printerOption },
        log := [], result := .ok () } := by
  simp [fetchPrintersOnResponse, bind, Handler.seq, update, eval, hd, callForEach,
    forEach_renderPrinter_ok _ _ h]


/-! ## What each event does -/

theorem resume_ok (k : JSValue → Handler Unit) (data : JSValue) (p : Page) :
    resume k (.ok data) p = k data p := by
  simp only [resume, bind, Handler.seq, eval]
  cases k data p
  simp

theorem resume_error (k : JSValue → Handler Unit) (e : JSError) (p : Page) :
    resume k (.error e) p = { page := p, log := [], result := .error e } := by
  simp [resume, bind, Handler.seq, eval]

theorem loginResponse_accepted (body : Except JSError JSValue) (p : Page)
    (h : loginSucceeds body = true) :
    ∃ accessToken, truthy accessToken = true ∧
      (Event.loginResponse body).handler p =
        { page := { loggedIn accessToken p with websocket := some "ws://localhost:8000/ws" },
          log := listingLog accessToken p
            ++ [(loggedIn accessToken p, .openSocket "ws://localhost:8000/ws")],
          result := .ok () } := by
  cases body with
  | error e => simp [loginSucceeds] at h
  | ok data =>
    cases hd : getProp data "access_token" with
    | error e => simp [loginSucceeds, hd] at h
    | ok accessToken =>
      have ht : truthy accessToken = true := by simpa [loginSucceeds, hd] using h
      exact ⟨accessToken, ht, by
        simp only [Event.handler, resume_ok]
        exact loginFormOnResponse_accept data accessToken p hd ht⟩

theorem loginResponse_refused (body : Except JSError JSValue) (p : Page)
    (h : loginSucceeds body = false) :
    ((Event.loginResponse body).handler p).page = p ∧
      ∀ entry ∈ ((Event.loginResponse body).handler p).log,
        entry = (p, Effect.alert "Login failed") := by
  cases body with
  | error e => simp [Event.handler, resume_error]
  | ok data =>
    cases hd : getProp data "access_token" with
    | error e =>
      simp [Event.handler, resume_ok, loginFormOnResponse_error data e p hd]
    | ok accessToken =>
      have ht : truthy accessToken = false := by simpa [loginSucceeds, hd] using h
      simp [Event.handler, resume_ok, loginFormOnResponse_reject data accessToken p hd ht]

theorem opened_listingLog (accessToken : JSValue) (p : Page) :
    opened (listingLog accessToken p) = 0 := by
  unfold listingLog
  cases toStr accessToken <;> simp [opened]

/-- An event other than an accepted login response: it leaves the token
alone, opens no socket and requests no printer listing. -/
theorem handler_quiet (ev : Event) (p : Page) (h : successfulLogins [ev] = 0) :
    (ev.handler p).page.token = p.token ∧ opened (ev.handler p).log = 0 ∧
      issued "/printers/" (ev.handler p).log = 0 := by
  cases ev with
  | loginSubmit clientId password =>
    simp [Event.handler, loginFormOnSubmit_eq, opened, issued]
  | printSubmit printerId fileUrl copies =>
    cases hs : toStr p.token with
    | ok tokenText =>
      simp only [Event.handler]
      rw [printFormOnSubmit_ok printerId fileUrl copies tokenText p hs]
      simp [opened, issued]
    | error e =>
      simp only [Event.handler]
      rw [printFormOnSubmit_error printerId fileUrl copies e p hs]
      simp [opened, issued]
  | loginResponse body =>
    have hb : loginSucceeds body = false := by
      cases hs : loginSucceeds body <;> simp [successfulLogins, hs] at h ⊢
    obtain ⟨hp, hl⟩ := loginResponse_refused body p hb
    refine ⟨by rw [hp], ?_, ?_⟩
    · generalize ((Event.loginResponse body).handler p).log = l at hl
      induction l with
      | nil => rfl
      | cons x rest ih =>
        have hx := hl x (List.mem_cons_self _ _)
        subst hx
        simpa [opened] using ih (fun e he => hl e (List.mem_cons_of_mem _ he))
    · generalize ((Event.loginResponse body).handler p).log = l at hl
      induction l with
      | nil => rfl
      | cons x rest ih =>
        have hx := hl x (List.mem_cons_self _ _)
        subst hx
        simpa [issued] using ih (fun e he => hl e (List.mem_cons_of_mem _ he))
  | printersResponse body =>
    obtain ⟨hl, ht⟩ := resume_silent _ fetchPrintersOnResponse_silent body p
    simp [Event.handler, hl, ht, opened, issued]
  | printResponse body =>
    obtain ⟨hl, ht⟩ := resume_silent _ printFormOnResponse_silent body p
    simp [Event.handler, hl, ht, opened, issued]
  | streamMessage parsed =>
    obtain ⟨hl, ht⟩ := websocketOnMessage_silent parsed p
    simp [Event.handler, hl, ht, opened, issued]

/-! ## Runs -/

theorem step_spec (s s1 : Sys) (ev : Event) (l1 : List (Page × Effect))
    (h : step s ev = some (s1, l1)) :
    s1.page = (ev.handler s.page).page ∧ l1 = (ev.handler s.page).log ∧
      s1.sockets = s.sockets + opened l1 := by
  unfold step at h
  split at h
  · simp only [Option.some.injEq, Prod.mk.injEq] at h
    obtain ⟨hs, hl⟩ := h
    subst hs hl
    refine ⟨rfl, rfl, ?_⟩
    cases ev <;> rfl
  · simp at h

theorem run_cons (s s2 : Sys) (ev : Event) (rest : List Event) (log : List (Page × Effect))
    (h : run s (ev :: rest) = some (s2, log)) :
    ∃ s1 l1 l2, step s ev = some (s1, l1) ∧ run s1 rest = some (s2, l2) ∧ log = l1 ++ l2 := by
  simp only [run] at h
  cases hstep : step s ev with
  | none => simp [hstep] at h
  | some r1 =>
    obtain ⟨s1, l1⟩ := r1
    cases hrun : run s1 rest with
    | none => simp [hstep, hrun] at h
    | some r2 =>
      obtain ⟨s3, l2⟩ := r2
      simp only [hstep, hrun, Option.some.injEq, Prod.mk.injEq] at h
      exact ⟨s1, l1, l2, rfl, by rw [hrun, h.1], h.2.symm⟩

theorem opened_append (l1 l2 : List (Page × Effect)) :
    opened (l1 ++ l2) = opened l1 + opened l2 := by
  induction l1 with
  | nil => simp [opened]
  | cons x rest ih =>
    obtain ⟨p, e⟩ := x
    cases e <;> simp [opened, ih]; omega

theorem successfulLogins_cons (ev : Event) (rest : List Event) :
    successfulLogins (ev :: rest) = successfulLogins [ev] + successfulLogins rest := by
  cases ev <;> simp [successfulLogins]

theorem truthy_ne_null (v : JSValue) (h : truthy v = true) : v ≠ .null := by
  intro hv
  subst hv
  simp [truthy] at h

theorem handler_token_present (ev : Event) (p : Page) (h : p.token ≠ .null) :
    (ev.handler p).page.token ≠ .null := by
  cases hs : successfulLogins [ev] with
  | zero => rw [(handler_quiet ev p hs).1]; exact h
  | succ n =>
    cases ev with
    | loginResponse body =>
      have hb : loginSucceeds body = true := by
        cases hb : loginSucceeds body <;> simp [successfulLogins, hb] at hs ⊢
      obtain ⟨accessToken, ht, heq⟩ := loginResponse_accepted body p hb
      rw [heq]
      exact truthy_ne_null accessToken ht
    | _ => simp [successfulLogins] at hs

theorem handler_opened (ev : Event) (p : Page) :
    opened (ev.handler p).log = successfulLogins [ev] := by
  cases hs : successfulLogins [ev] with
  | zero => exact (handler_quiet ev p hs).2.1
  | succ n =>
    cases ev with
    | loginResponse body =>
      have hb : loginSucceeds body = true := by
        cases hb : loginSucceeds body <;> simp [successfulLogins, hb] at hs ⊢
      obtain ⟨accessToken, ht, heq⟩ := loginResponse_accepted body p hb
      rw [heq]
      simp [successfulLogins, hb] at hs
      subst hs
      simp [opened, opened_append, opened_listingLog]
    | _ => simp [successfulLogins] at hs

theorem run_token_present (evs : List Event) (s s2 : Sys) (log : List (Page × Effect))
    (h : s.page.token ≠ .null) (hrun : run s evs = some (s2, log)) :
    s2.page.token ≠ .null := by
  induction evs generalizing s log with
  | nil =>
    simp only [run, Option.some.injEq, Prod.mk.injEq] at hrun
    rw [← hrun.1]; exact h
  | cons ev rest ih =>
    obtain ⟨s1, l1, l2, hstep, hrest, _⟩ := run_cons s s2 ev rest log hrun
    have hp := (step_spec s s1 ev l1 hstep).1
    exact ih s1 l2 (by rw [hp]; exact handler_token_present ev s.page h) hrest

theorem run_sockets (evs : List Event) (s s2 : Sys) (log : List (Page × Effect))
    (hrun : run s evs = some (s2, log)) :
    s2.sockets = s.sockets + successfulLogins evs ∧ opened log = successfulLogins evs := by
  induction evs generalizing s log with
  | nil =>
    simp only [run, Option.some.injEq, Prod.mk.injEq] at hrun
    rw [← hrun.1, ← hrun.2]
    simp [successfulLogins, opened]
  | cons ev rest ih =>
    obtain ⟨s1, l1, l2, hstep, hrest, hlog⟩ := run_cons s s2 ev rest log hrun
    obtain ⟨_, hl1, hsock⟩ := step_spec s s1 ev l1 hstep
    obtain ⟨h1, h2⟩ := ih s1 l2 hrest
    have ho : opened l1 = successfulLogins [ev] := by rw [hl1]; exact handler_opened ev s.page
    rw [successfulLogins_cons, h1, hsock, ho, hlog, opened_append, ho, h2]
    omega

/-- Every request a handler issues: a login request, a job submission that
carries the token of the moment, or a printer listing issued right after a
truthy token was stored. -/
theorem handler_fetches (ev : Event) (p : Page) :
    ∀ entry ∈ (ev.handler p).log, ∀ req, entry.2 = .fetch req →
      req.url = "/login" ∨
      (req.url = "/print-job/" ∧ entry.1 = p ∧
        ∃ tokenText, toStr p.token = .ok tokenText ∧
          req.headers.lookup "Authorization" = some ("Bearer " ++ tokenText)) ∨
      (req.url = "/printers/" ∧ truthy entry.1.token = true ∧ successfulLogins [ev] = 1 ∧
        ∃ tokenText, toStr entry.1.token = .ok tokenText ∧
          req.headers.lookup "Authorization" = some ("Bearer " ++ tokenText)) := by
  intro entry hmem req hreq
  cases ev with
  | loginSubmit clientId password =>
    simp only [Event.handler, loginFormOnSubmit_eq, List.mem_cons, List.mem_singleton,
      List.mem_nil_iff, or_false] at hmem
    rcases hmem with h | h
    · subst h; simp at hreq
    · subst h
      simp only [Effect.fetch.injEq] at hreq
      subst hreq
      exact Or.inl rfl
  | printSubmit printerId fileUrl copies =>
    cases hs : toStr p.token with
    | error e =>
      simp only [Event.handler] at hmem
      rw [printFormOnSubmit_error printerId fileUrl copies e p hs] at hmem
      simp only [List.mem_singleton] at hmem
      subst hmem; simp at hreq
    | ok tokenText =>
      simp only [Event.handler] at hmem
      rw [printFormOnSubmit_ok printerId fileUrl copies tokenText p hs] at hmem
      simp only [List.mem_cons, List.mem_singleton, List.mem_nil_iff, or_false] at hmem
      rcases hmem with h | h
      · subst h; simp at hreq
      · subst h
        simp only [Effect.fetch.injEq] at hreq
        subst hreq
        exact Or.inr (Or.inl ⟨rfl, rfl, tokenText, rfl, by simp [List.lookup]⟩)
  | loginResponse body =>
    cases hb : loginSucceeds body with
    | false =>
      have := (loginResponse_refused body p hb).2 entry hmem
      subst this
      simp at hreq
    | true =>
      obtain ⟨accessToken, ht, heq⟩ := loginResponse_accepted body p hb
      rw [heq] at hmem
      simp only [List.mem_append, List.mem_singleton] at hmem
      rcases hmem with h | h
      · unfold listingLog at h
        cases hs : toStr accessToken with
        | error e => simp [hs] at h
        | ok tokenText =>
          simp only [hs, List.mem_singleton] at h
          subst h
          simp only [Effect.fetch.injEq] at hreq
          subst hreq
          exact Or.inr (Or.inr ⟨rfl, ht, by simp [successfulLogins, hb],
            tokenText, hs, by simp [List.lookup]⟩)
      · subst h; simp at hreq
  | printersResponse body =>
    simp [Event.handler, (resume_silent _ fetchPrintersOnResponse_silent body p).1] at hmem
  | printResponse body =>
    simp [Event.handler, (resume_silent _ printFormOnResponse_silent body p).1] at hmem
  | streamMessage parsed =>
    simp [Event.handler, (websocketOnMessage_silent parsed p).1] at hmem

theorem run_token_kept (evs : List Event) (s s2 : Sys) (log : List (Page × Effect))
    (hq : successfulLogins evs = 0) (hrun : run s evs = some (s2, log)) :
    s2.page.token = s.page.token ∧
      ∀ entry ∈ log, ∀ req, entry.2 = .fetch req → req.url = "/print-job/" →
        ∃ tokenText, toStr s.page.token = .ok tokenText ∧
          req.headers.lookup "Authorization" = some ("Bearer " ++ tokenText) := by
  induction evs generalizing s log with
  | nil =>
    simp only [run, Option.some.injEq, Prod.mk.injEq] at hrun
    rw [← hrun.1, ← hrun.2]
    simp
  | cons ev rest ih =>
    obtain ⟨s1, l1, l2, hstep, hrest, hlog⟩ := run_cons s s2 ev rest log hrun
    obtain ⟨hp, hl1, _⟩ := step_spec s s1 ev l1 hstep
    rw [successfulLogins_cons] at hq
    have hev : successfulLogins [ev] = 0 := by omega
    have hrs : successfulLogins rest = 0 := by omega
    have htok : s1.page.token = s.page.token := by
      rw [hp]; exact (handler_quiet ev s.page hev).1
    obtain ⟨h1, h2⟩ := ih s1 l2 hrs hrest
    refine ⟨by rw [h1, htok], ?_⟩
    intro entry hmem req hreq hurl
    rw [hlog, List.mem_append] at hmem
    rcases hmem with hm | hm
    · rw [hl1] at hm
      rcases handler_fetches ev s.page entry hm req hreq with h | h | h
      · rw [hurl] at h; simp at h
      · exact h.2.2
      · rw [hurl] at h; simp at h
    · rw [← htok]; exact h2 entry hm req hreq hurl

theorem run_fetches (evs : List Event) (s s2 : Sys) (log : List (Page × Effect))
    (hrun : run s evs = some (s2, log)) :
    ∀ entry ∈ log, ∀ req, entry.2 = .fetch req →
      (req.url = "/printers/" → truthy entry.1.token = true) ∧
      (req.url = "/print-job/" →
        ∃ tokenText, toStr entry.1.token = .ok tokenText ∧
          req.headers.lookup "Authorization" = some ("Bearer " ++ tokenText)) := by
  induction evs generalizing s log with
  | nil =>
    simp only [run, Option.some.injEq, Prod.mk.injEq] at hrun
    rw [← hrun.2]
    simp
  | cons ev rest ih =>
    obtain ⟨s1, l1, l2, hstep, hrest, hlog⟩ := run_cons s s2 ev rest log hrun
    obtain ⟨_, hl1, _⟩ := step_spec s s1 ev l1 hstep
    intro entry hmem req hreq
    rw [hlog, List.mem_append] at hmem
    rcases hmem with hm | hm
    · rw [hl1] at hm
      rcases handler_fetches ev s.page entry hm req hreq with h | h | h
      · constructor <;> intro hurl <;> rw [hurl] at h <;> simp at h
      · constructor
        · intro hurl; rw [hurl] at h; simp at h
        · intro _; rw [h.2.1]; exact h.2.2
      · constructor
        · intro _; exact h.2.1
        · intro hurl; rw [hurl] at h; simp at h
    · exact ih s1 l2 hrest entry hm req hreq


/-! ## The claims -/

/-- C1, as stated, fails: a print-form submit right after page load, while
`token` is still `null`, issues `POST /print-job/` with the header
`Authorization: Bearer null`. -/
theorem anonymous_print_submit_issues_request :
    (Page.initial blankDom).token = .null ∧
    (run (Sys.initial blankDom) [.printSubmit "p1" "http://files/a.pdf" "1"]).map
        (fun r => (authHeaders r.2, r.2.map (fun entry => entry.2.isAuthenticated),
          r.1.awaitingPrint))
      = some ([("/print-job/", some "Bearer null")], [false, true], 1) ∧
    ¬ (∀ d evs s log, run (Sys.initial d) evs = some (s, log) →
        ∀ entry ∈ log, entry.2.isAuthenticated = true → entry.1.token ≠ .null) := by
  refine ⟨rfl, by decide, ?_⟩
  intro h
  have hrun : run (Sys.initial blankDom) [.printSubmit "p1" "http://files/a.pdf" "1"]
      = some (_, _) := rfl
  exact h _ _ _ _ hrun
    (Page.initial blankDom, .fetch
      { method := "POST", url := "/print-job/",
        headers := [("Content-Type", "application/json"),
                    ("Authorization", "Bearer " ++ "null")],
        body := some (.json (.obj [("printer_id", .str "p1"),
                                    ("file_url", .str "http://files/a.pdf"),
                                    ("copies", .str "1")])) })
    (List.Mem.tail _ (List.Mem.head _)) rfl rfl

/-- C1, amended: on every run from page load, a printer-listing request
(`/printers/`) is only ever issued at a moment when `token` is truthy, hence
not `null`, and every job submission (`/print-job/`) that is issued carries
`Bearer ` followed by the string form of the token of that moment.  The
print-form submit has no token guard: in the state reached, whenever the
token can be converted to a string the submit issues exactly one job
submission with that header, which is `Bearer null` while the token is
`null`; only when the token cannot be converted to a string does building the
header throw, and then no request is issued. -/
theorem listing_request_only_with_token (d : Dom) (evs : List Event) (s : Sys)
    (log : List (Page × Effect)) (hrun : run (Sys.initial d) evs = some (s, log)) :
    (∀ entry ∈ log, ∀ req, entry.2 = .fetch req →
      (req.url = "/printers/" → truthy entry.1.token = true ∧ entry.1.token ≠ .null) ∧
      (req.url = "/print-job/" →
        ∃ tokenText, toStr entry.1.token = .ok tokenText ∧
          req.headers.lookup "Authorization" = some ("Bearer " ++ tokenText))) ∧
    (∀ printerId fileUrl copies,
      (∀ tokenText, toStr s.page.token = .ok tokenText →
        ∃ s2, s2.page = s.page ∧ s2.awaitingPrint = s.awaitingPrint + 1 ∧
          step s (.printSubmit printerId fileUrl copies)
            = some (s2,
                [(s.page, .preventDefault),
                 (s.page, .fetch
                   { method := "POST", url := "/print-job/",
                     headers := [("Content-Type", "application/json"),
                                 ("Authorization", "Bearer " ++ tokenText)],
                     body := some (.json (.obj [("printer_id", .str printerId),
                                                 ("file_url", .str fileUrl),
                                                 ("copies", .str copies)])) })])) ∧
      (s.page.token = .null →
        ∃ s2 l2, step s (.printSubmit printerId fileUrl copies) = some (s2, l2) ∧
          authHeaders l2 = [("/print-job/", some "Bearer null")]) ∧
      (∀ e, toStr s.page.token = .error e →
        ∃ s2, s2.page = s.page ∧ s2.awaitingPrint = s.awaitingPrint ∧
          step s (.printSubmit printerId fileUrl copies)
            = some (s2, [(s.page, .preventDefault)]))) := by
  refine ⟨?_, ?_⟩
  · intro entry hmem req hreq
    obtain ⟨h1, h2⟩ := run_fetches evs (Sys.initial d) s log hrun entry hmem req hreq
    exact ⟨fun hurl => ⟨h1 hurl, truthy_ne_null _ (h1 hurl)⟩, h2⟩
  · intro printerId fileUrl copies
    have hok : ∀ tokenText, toStr s.page.token = .ok tokenText →
        ∃ s2, s2.page = s.page ∧ s2.awaitingPrint = s.awaitingPrint + 1 ∧
          step s (.printSubmit printerId fileUrl copies)
            = some (s2,
                [(s.page, .preventDefault),
                 (s.page, .fetch
                   { method := "POST", url := "/print-job/",
                     headers := [("Content-Type", "application/json"),
                                 ("Authorization", "Bearer " ++ tokenText)],
                     body := some (.json (.obj [("printer_id", .str printerId),
                                                 ("file_url", .str fileUrl),
                                                 ("copies", .str copies)])) })]) := by
      intro tokenText ht
      have e := printFormOnSubmit_ok printerId fileUrl copies tokenText s.page ht
      refine ⟨_, ?_, ?_, by simp only [step, Sys.enabled, Event.handler, if_true]; rw [e]⟩
      · rfl
      · simp [Sys.consume, issued]
    refine ⟨hok, ?_, ?_⟩
    · intro hnull
      obtain ⟨s2, _, _, hstep⟩ := hok "null" (by rw [hnull]; rfl)
      exact ⟨s2, _, hstep, by simp [authHeaders, List.lookup]⟩
    · intro e he
      have e2 := printFormOnSubmit_error printerId fileUrl copies e s.page he
      refine ⟨_, ?_, ?_, by simp only [step, Sys.enabled, Event.handler, if_true]; rw [e2]⟩
      · rfl
      · simp [Sys.consume, issued]

theorem listing_request_only_with_token_witness :
    (∃ s log,
      run (Sys.initial blankDom)
        [.loginSubmit "alice" "pw", .loginResponse (.ok (tokenDoc "T1")),
         .printSubmit "p1" "http://files/a.pdf" "2"] = some (s, log) ∧
      authHeaders log =
        [("/login", none), ("/printers/", some "Bearer T1"), ("/print-job/", some "Bearer T1")] ∧
      (∀ entry ∈ log, ∀ req, entry.2 = .fetch req →
        (req.url = "/printers/" → truthy entry.1.token = true ∧ entry.1.token ≠ .null) ∧
        (req.url = "/print-job/" →
          ∃ tokenText, toStr entry.1.token = .ok tokenText ∧
            req.headers.lookup "Authorization" = some ("Bearer " ++ tokenText))) ∧
      ∃ s2, s2.page = s.page ∧ s2.awaitingPrint = s.awaitingPrint + 1 ∧
        step s (.printSubmit "p2" "http://files/b.pdf" "1")
          = some (s2,
              [(s.page, .preventDefault),
               (s.page, .fetch
                 { method := "POST", url := "/print-job/",
                   headers := [("Content-Type", "application/json"),
                               ("Authorization", "Bearer " ++ "T1")],
                   body := some (.json (.obj [("printer_id", .str "p2"),
                                               ("file_url", .str "http://files/b.pdf"),
                                               ("copies", .str "1")])) })])) ∧
    (∃ s2 l2,
      step (Sys.initial blankDom) (.printSubmit "p2" "http://files/b.pdf" "1") = some (s2, l2) ∧
      authHeaders l2 = [("/print-job/", some "Bearer null")]) ∧
    (∃ s log,
      run (Sys.initial blankDom)
        [.loginSubmit "alice" "pw",
         .loginResponse (.ok (.obj [("access_token", .obj [("toString", .str "T1")])]))]
        = some (s, log) ∧
      authHeaders log = [("/login", none)] ∧
      ∃ s2, s2.page = s.page ∧ s2.awaitingPrint = s.awaitingPrint ∧
        step s (.printSubmit "p2" "http://files/b.pdf" "1")
          = some (s2, [(s.page, .preventDefault)])) :=
  ⟨⟨_, _, rfl, by decide,
     (listing_request_only_with_token blankDom
       [.loginSubmit "alice" "pw", .loginResponse (.ok (tokenDoc "T1")),
        .printSubmit "p1" "http://files/a.pdf" "2"] _ _ rfl).1,
     ((listing_request_only_with_token blankDom
       [.loginSubmit "alice" "pw", .loginResponse (.ok (tokenDoc "T1")),
        .printSubmit "p1" "http://files/a.pdf" "2"] _ _ rfl).2
         "p2" "http://files/b.pdf" "1").1 "T1" rfl⟩,
   ((listing_request_only_with_token blankDom [] (Sys.initial blankDom) [] rfl).2
       "p2" "http://files/b.pdf" "1").2.1 rfl,
   ⟨_, _, rfl, by decide,
     ((listing_request_only_with_token blankDom
       [.loginSubmit "alice" "pw",
        .loginResponse (.ok (.obj [("access_token", .obj [("toString", .str "T1")])]))]
       _ _ rfl).2 "p2" "http://files/b.pdf" "1").2.2 .typeError rfl⟩⟩

/-- C2, as stated, fails: the body JSON `null` has no `access_token`, and
for it the handler throws a `TypeError` when it reads `data.access_token`;
no alert is shown. -/
theorem login_null_body_shows_no_alert :
    hasKey .null "access_token" = false ∧
    (loginFormOnResponse .null (Page.initial blankDom)).log = [] ∧
    (loginFormOnResponse .null (Page.initial blankDom)).result = .error .typeError ∧
    (run (Sys.initial blankDom)
        [.loginSubmit "alice" "pw", .loginResponse (.ok .null)]).map
        (fun r => r.2.map (fun entry => entry.2.isAlert))
      = some [false, false] := by
  refine ⟨rfl, rfl, rfl, ?_⟩
  rfl

/-- C2, amended: a login response without an `access_token` member leaves
the page exactly as it was (token, main container, login form, socket
variable), requests no printer listing and opens no socket, and everything
the handler does is the alert `Login failed`.  When the body is a JSON value
other than `null`, that alert is raised exactly once and the handler ends
normally; when the body is `null`, the handler throws a `TypeError` and
raises no alert. -/
theorem login_without_token_changes_nothing (data : JSValue) (p : Page)
    (h : hasKey data "access_token" = false) :
    (loginFormOnResponse data p).page = p ∧
    issued "/printers/" (loginFormOnResponse data p).log = 0 ∧
    opened (loginFormOnResponse data p).log = 0 ∧
    (∀ entry ∈ (loginFormOnResponse data p).log, entry = (p, Effect.alert "Login failed")) ∧
    (readable data = true →
      (loginFormOnResponse data p).log = [(p, .alert "Login failed")] ∧
      (loginFormOnResponse data p).result = .ok ()) ∧
    (readable data = false →
      (loginFormOnResponse data p).log = [] ∧
      (loginFormOnResponse data p).result = .error .typeError) := by
  cases hr : readable data with
  | false =>
    simp [loginFormOnResponse_error data _ p (getProp_unreadable data _ hr), issued, opened]
  | true =>
    have hg : getProp data "access_token" = .ok .undefined := by
      cases data with
      | obj fields =>
        have hl : fields.lookup "access_token" = none := by simpa [hasKey] using h
        simp [getProp, hl]
      | undefined => simp [readable] at hr
      | null => simp [readable] at hr
      | _ => rfl
    simp [loginFormOnResponse_reject data .undefined p hg rfl, issued, opened]

theorem login_without_token_changes_nothing_witness :
    hasKey refusalDoc "access_token" = false ∧
    (loginFormOnResponse refusalDoc (Page.initial blankDom)).page = Page.initial blankDom ∧
    (loginFormOnResponse refusalDoc (Page.initial blankDom)).log
      = [(Page.initial blankDom, .alert "Login failed")] ∧
    (loginFormOnResponse .null (Page.initial blankDom)).page = Page.initial blankDom ∧
    (loginFormOnResponse .null (Page.initial blankDom)).log = [] :=
  ⟨rfl,
   (login_without_token_changes_nothing refusalDoc (Page.initial blankDom) rfl).1,
   ((login_without_token_changes_nothing refusalDoc (Page.initial blankDom) rfl).2.2.2.2.1
      rfl).1,
   (login_without_token_changes_nothing .null (Page.initial blankDom) rfl).1,
   ((login_without_token_changes_nothing .null (Page.initial blankDom) rfl).2.2.2.2.2
      rfl).1⟩

/-- C3, as stated, fails twice.  With the empty string as access token the
login is refused, `token` stays `null`, and a later job submission carries
`Bearer null`, not `Bearer ` followed by the empty string.  And after a login
with token `a`, a second accepted login response with token `b` makes the
later job submission carry `Bearer b`. -/
theorem bearer_header_not_for_every_token :
    (run (Sys.initial blankDom)
        [.loginSubmit "alice" "pw", .loginResponse (.ok (tokenDoc "")),
         .printSubmit "p1" "http://files/a.pdf" "1"]).map (fun r => authHeaders r.2)
      = some [("/login", none), ("/print-job/", some "Bearer null")] ∧
    (run (Sys.initial blankDom)
        [.loginSubmit "alice" "pw", .loginSubmit "alice" "pw",
         .loginResponse (.ok (tokenDoc "a")), .loginResponse (.ok (tokenDoc "b")),
         .printSubmit "p1" "http://files/a.pdf" "1"]).map (fun r => authHeaders r.2)
      = some [("/login", none), ("/login", none), ("/printers/", some "Bearer a"),
              ("/printers/", some "Bearer b"), ("/print-job/", some "Bearer b")] := by
  constructor <;> decide

/-- C3, amended: for every non-empty token string `T`, handling a login
response whose `access_token` is `T` stores `T`, issues exactly one request,
the printer listing, with `Authorization: Bearer T`, and every job
submission issued afterwards, up to the next accepted login response,
carries `Authorization: Bearer T`. -/
theorem bearer_header_after_login (T : String) (hT : T ≠ "") (data : JSValue) (p : Page)
    (hd : getProp data "access_token" = .ok (.str T)) :
    (loginFormOnResponse data p).page.token = .str T ∧
    authHeaders (loginFormOnResponse data p).log = [("/printers/", some ("Bearer " ++ T))] ∧
    ∀ (s s2 : Sys) (evs : List Event) (log : List (Page × Effect)),
      s.page = (loginFormOnResponse data p).page → successfulLogins evs = 0 →
      run s evs = some (s2, log) →
      ∀ entry ∈ log, ∀ req, entry.2 = .fetch req → req.url = "/print-job/" →
        req.headers.lookup "Authorization" = some ("Bearer " ++ T) := by
  have ht : truthy (.str T) = true := by simp [truthy, hT]
  rw [loginFormOnResponse_accept data (.str T) p hd ht]
  refine ⟨rfl, by simp [authHeaders, List.lookup, listingLog, toStr], ?_⟩
  intro s s2 evs log hs hq hrun entry hmem req hreq hurl
  obtain ⟨tokenText, h1, h2⟩ := (run_token_kept evs s s2 log hq hrun).2 entry hmem req hreq hurl
  rw [hs] at h1
  have h3 : tokenText = T := by simpa [loggedIn, toStr] using h1.symm
  rw [h2, h3]

theorem bearer_header_after_login_witness :
    getProp (tokenDoc "T1") "access_token" = .ok (.str "T1") ∧
    (loginFormOnResponse (tokenDoc "T1") (Page.initial blankDom)).page.token = .str "T1" ∧
    authHeaders (loginFormOnResponse (tokenDoc "T1") (Page.initial blankDom)).log
      = [("/printers/", some ("Bearer " ++ "T1"))] ∧
    ∃ s2 log,
      run { page := (loginFormOnResponse (tokenDoc "T1") (Page.initial blankDom)).page,
            sockets := 1, awaitingLogin := 0, awaitingPrinters := 1, awaitingPrint := 0 }
          [.printSubmit "p1" "http://files/a.pdf" "1", .loginSubmit "bob" "x",
           .loginResponse (.ok refusalDoc), .printSubmit "p2" "http://files/b.pdf" "3"]
        = some (s2, log) ∧
      authHeaders log = [("/print-job/", some "Bearer T1"), ("/login", none),
                         ("/print-job/", some "Bearer T1")] ∧
      ∀ entry ∈ log, ∀ req, entry.2 = .fetch req → req.url = "/print-job/" →
        req.headers.lookup "Authorization" = some ("Bearer " ++ "T1") :=
  ⟨rfl,
   (bearer_header_after_login "T1" (by decide) (tokenDoc "T1") (Page.initial blankDom) rfl).1,
   (bearer_header_after_login "T1" (by decide) (tokenDoc "T1") (Page.initial blankDom) rfl).2.1,
   _, _, rfl, by decide,
   (bearer_header_after_login "T1" (by decide) (tokenDoc "T1") (Page.initial blankDom) rfl).2.2
     { page := (loginFormOnResponse (tokenDoc "T1") (Page.initial blankDom)).page,
       sockets := 1, awaitingLogin := 0, awaitingPrinters := 1, awaitingPrint := 0 } _
     [.printSubmit "p1" "http://files/a.pdf" "1", .loginSubmit "bob" "x",
      .loginResponse (.ok refusalDoc), .printSubmit "p2" "http://files/b.pdf" "3"] _
     rfl rfl rfl⟩

/-- C4, the code against the claim: when two login responses are accepted
(the form was submitted twice before the first response came), the two
listings that follow each hold one printer; the display area ends with one
entry, the selection control with two, because only the display area is
emptied before it is filled. -/
theorem printer_select_keeps_old_options :
    (run (Sys.initial blankDom)
        [.loginSubmit "alice" "pw", .loginSubmit "alice" "pw",
         .loginResponse (.ok (tokenDoc "T1")), .loginResponse (.ok (tokenDoc "T1")),
         .printersResponse (.ok onePrinterDoc),
         .printersResponse (.ok onePrinterDoc)]).map
        (fun r => (r.1.page.printersList.length, r.1.page.printerSelect))
      = some (1, [{ value := "p1", text := "Front desk" },
                  { value := "p1", text := "Front desk" }]) := by
  decide

/-- C5, the code against the claim: the login body is the two form values
pasted between the field names, not escaped.  Plain values decode to the
three fields; but for the identifier `a&b` a server decoding the body
obtains four fields with `username` equal to `a`, and in a password `+`
decodes to a space and `%41` to `A`. -/
theorem login_body_not_encoded :
    decodeForm (loginBody "alice" "s3cret")
      = [("username", "alice"), ("password", "s3cret"), ("grant_type", "password")] ∧
    loginBody "a&b" "pw" = "username=a&b&password=pw&grant_type=password" ∧
    decodeForm (loginBody "a&b" "pw")
      = [("username", "a"), ("b", ""), ("password", "pw"), ("grant_type", "password")] ∧
    decodeForm (loginBody "a&b" "pw")
      ≠ [("username", "a&b"), ("password", "pw"), ("grant_type", "password")] ∧
    decodeForm (loginBody "alice" "p+w%41")
      = [("username", "alice"), ("password", "p wA"), ("grant_type", "password")] := by
  decide

/-- C6, as stated, fails: when the `printer_id` of the response is an object
with an own member `toString`, converting it for the status line throws a
`TypeError`; the handler ends there and the log stays as it was. -/
theorem print_response_unprintable_id :
    (printFormOnResponse
        (.obj [("print_job", .obj [("printer_id", .obj [("toString", .str "P7")])])])
        { Page.initial blankDom with statusMessages := ["first"] }).page.statusMessages
      = ["first"] ∧
    (printFormOnResponse
        (.obj [("print_job", .obj [("printer_id", .obj [("toString", .str "P7")])])])
        { Page.initial blankDom with statusMessages := ["first"] }).result
      = .error .typeError := by
  exact ⟨rfl, rfl⟩

/-- C6, amended: for every page and every job-submission response whose
`print_job` is an object with the member `printer_id` equal to `P`: when `P`
can be converted to a string, the handler ends normally and the status log
becomes the old log followed by the one line `Print job sent to printer: `
followed by that string, which is `P` itself for a string and its decimal
text for a number; when `P` cannot be converted, the handler throws and the
page stays as it was. -/
theorem print_response_appends_line (p : Page) (fields jobFields : List (String × JSValue))
    (P : JSValue) (h1 : fields.lookup "print_job" = some (.obj jobFields))
    (h2 : jobFields.lookup "printer_id" = some P) :
    (∀ printerText, toStr P = .ok printerText →
      (printFormOnResponse (.obj fields) p).page.statusMessages
        = p.statusMessages ++ ["Print job sent to printer: " ++ printerText] ∧
      (printFormOnResponse (.obj fields) p).log = [] ∧
      (printFormOnResponse (.obj fields) p).result = .ok ()) ∧
    (∀ name, P = .str name →
      (printFormOnResponse (.obj fields) p).page.statusMessages
        = p.statusMessages ++ ["Print job sent to printer: " ++ name]) ∧
    (∀ n, P = .num n →
      (printFormOnResponse (.obj fields) p).page.statusMessages
        = p.statusMessages ++ ["Print job sent to printer: " ++ n.text]) ∧
    (∀ e, toStr P = .error e →
      printFormOnResponse (.obj fields) p = { page := p, log := [], result := .error e }) := by
  have g1 : getProp (.obj fields) "print_job" = .ok (.obj jobFields) := by simp [getProp, h1]
  have g2 : getProp (.obj jobFields) "printer_id" = .ok P := by simp [getProp, h2]
  have hok : ∀ printerText, toStr P = .ok printerText →
      printFormOnResponse (.obj fields) p =
        { page := { p with
            statusMessages := p.statusMessages ++ ["Print job sent to printer: " ++ printerText],
            statusAtEnd := true },
          log := [], result := .ok () } :=
    fun printerText ht => printFormOnResponse_ok _ _ P printerText p g1 g2 ht
  refine ⟨?_, ?_, ?_, ?_⟩
  · intro printerText ht
    rw [hok printerText ht]
    exact ⟨rfl, rfl, rfl⟩
  · intro name hname
    subst hname
    rw [hok name rfl]
  · intro n hn
    subst hn
    rw [hok n.text rfl]
  · intro e he
    exact printFormOnResponse_throw _ _ P e p g1 g2 he

theorem print_response_appends_line_witness :
    (printFormOnResponse (.obj [("print_job", .obj [("printer_id", .str "P7")])])
        { Page.initial blankDom with statusMessages := ["first", "second"] }).page.statusMessages
      = ["first", "second", "Print job sent to printer: P7"] ∧
    (printFormOnResponse
        (.obj [("print_job", .obj [("printer_id", .num { isZero := false, text := "42" })])])
        { Page.initial blankDom with statusMessages := ["first", "second"] }).page.statusMessages
      = ["first", "second", "Print job sent to printer: 42"] ∧
    (printFormOnResponse (.obj [("print_job", .obj [("printer_id", .null)])])
        { Page.initial blankDom with statusMessages := ["first", "second"] }).page.statusMessages
      = ["first", "second", "Print job sent to printer: null"] :=
  ⟨(print_response_appends_line
      { Page.initial blankDom with statusMessages := ["first", "second"] }
      [("print_job", .obj [("printer_id", .str "P7")])] [("printer_id", .str "P7")]
      (.str "P7") rfl rfl).2.1 "P7" rfl,
   (print_response_appends_line
      { Page.initial blankDom with statusMessages := ["first", "second"] }
      [("print_job", .obj [("printer_id", .num { isZero := false, text := "42" })])]
      [("printer_id", .num { isZero := false, text := "42" })]
      (.num { isZero := false, text := "42" }) rfl rfl).2.2.1 _ rfl,
   ((print_response_appends_line
      { Page.initial blankDom with statusMessages := ["first", "second"] }
      [("print_job", .obj [("printer_id", .null)])] [("printer_id", .null)]
      .null rfl rfl).1 "null" rfl).1⟩

/-- C7, as stated, fails: when the `printer_id` of the message is an object
with an own member `toString`, converting it for the status line throws a
`TypeError`; no line is appended. -/
theorem stream_message_unprintable_id :
    (websocketOnMessage
        (some (.obj [("print_job", .obj [("printer_id", .obj [("toString", .str "P3")])])]))
        { Page.initial blankDom with statusMessages := ["first"] }).page.statusMessages
      = ["first"] ∧
    (websocketOnMessage
        (some (.obj [("print_job", .obj [("printer_id", .obj [("toString", .str "P3")])])]))
        { Page.initial blankDom with statusMessages := ["first"] }).result
      = .error .typeError := by
  exact ⟨rfl, rfl⟩

/-- C7, amended: for every page and every stream message that is a JSON
object: when its `print_job` is an object with the member `printer_id` equal
to `P` and `P` can be converted to a string, the status log becomes the old
log followed by the one line `Received print job for printer: ` followed by
that string, which is `P` itself for a string and its decimal text for a
number, and the handler ends normally and issues nothing; when `P` cannot be
converted, the handler throws and the page stays as it was; when the message
has no `print_job` member the page, and so the log, stays as it was. -/
theorem stream_message_log (p : Page) (fields : List (String × JSValue)) :
    (∀ jobFields P, fields.lookup "print_job" = some (.obj jobFields) →
      jobFields.lookup "printer_id" = some P →
      (∀ printerText, toStr P = .ok printerText →
        (websocketOnMessage (some (.obj fields)) p).page.statusMessages
          = p.statusMessages ++ ["Received print job for printer: " ++ printerText] ∧
        (websocketOnMessage (some (.obj fields)) p).log = [] ∧
        (websocketOnMessage (some (.obj fields)) p).result = .ok ()) ∧
      (∀ name, P = .str name →
        (websocketOnMessage (some (.obj fields)) p).page.statusMessages
          = p.statusMessages ++ ["Received print job for printer: " ++ name]) ∧
      (∀ n, P = .num n →
        (websocketOnMessage (some (.obj fields)) p).page.statusMessages
          = p.statusMessages ++ ["Received print job for printer: " ++ n.text]) ∧
      (∀ e, toStr P = .error e →
        websocketOnMessage (some (.obj fields)) p
          = { page := p, log := [], result := .error e })) ∧
    (fields.lookup "print_job" = none →
      websocketOnMessage (some (.obj fields)) p = { page := p, log := [], result := .ok () }) := by
  constructor
  · intro jobFields P h1 h2
    have g1 : getProp (.obj fields) "print_job" = .ok (.obj jobFields) := by
      simp [getProp, h1]
    have g2 : getProp (.obj jobFields) "printer_id" = .ok P := by simp [getProp, h2]
    have hok : ∀ printerText, toStr P = .ok printerText →
        websocketOnMessage (some (.obj fields)) p =
          { page := { p with
              statusMessages :=
                p.statusMessages ++ ["Received print job for printer: " ++ printerText],
              statusAtEnd := true },
            log := [], result := .ok () } :=
      fun printerText ht => websocketOnMessage_act _ _ P printerText p g1 rfl g2 ht
    refine ⟨?_, ?_, ?_, ?_⟩
    · intro printerText ht
      rw [hok printerText ht]
      exact ⟨rfl, rfl, rfl⟩
    · intro name hname
      subst hname
      rw [hok name rfl]
    · intro n hn
      subst hn
      rw [hok n.text rfl]
    · intro e he
      exact websocketOnMessage_throw _ _ P e p g1 rfl g2 he
  · intro h
    exact websocketOnMessage_skip (.obj fields) .undefined p (by simp [getProp, h]) rfl

theorem stream_message_log_witness :
    (websocketOnMessage
        (some (.obj [("print_job", .obj [("printer_id", .str "P3"), ("copies", .str "2")])]))
        { Page.initial blankDom with statusMessages := ["first"] }).page.statusMessages
      = ["first", "Received print job for printer: P3"] ∧
    (websocketOnMessage
        (some (.obj [("print_job", .obj [("printer_id", .num { isZero := false, text := "7" })])]))
        { Page.initial blankDom with statusMessages := ["first"] }).page.statusMessages
      = ["first", "Received print job for printer: 7"] ∧
    websocketOnMessage (some (.obj [("ping", .bool true)]))
        { Page.initial blankDom with statusMessages := ["first"] }
      = { page := { Page.initial blankDom with statusMessages := ["first"] },
          log := [], result := .ok () } :=
  ⟨((stream_message_log { Page.initial blankDom with statusMessages := ["first"] }
      [("print_job", .obj [("printer_id", .str "P3"), ("copies", .str "2")])]).1
      [("printer_id", .str "P3"), ("copies", .str "2")] (.str "P3") rfl rfl).2.1 "P3" rfl,
   ((stream_message_log { Page.initial blankDom with statusMessages := ["first"] }
      [("print_job", .obj [("printer_id", .num { isZero := false, text := "7" })])]).1
      [("printer_id", .num { isZero := false, text := "7" })]
      (.num { isZero := false, text := "7" }) rfl rfl).2.2.1 _ rfl,
   (stream_message_log { Page.initial blankDom with statusMessages := ["first"] }
      [("ping", .bool true)]).2 rfl⟩

/-- C8, as stated, fails: a frame whose `print_job` is the string `x`, or the
empty object, is acted on and appends a line ending in `undefined`; a frame
that is JSON `null` makes the handler throw a `TypeError`, and a frame that
is not JSON makes it throw a `SyntaxError`. -/
theorem stream_handler_not_always_noop :
    (websocketOnMessage (some (.obj [("print_job", .str "x")]))
        (Page.initial blankDom)).page.statusMessages
      = ["Received print job for printer: undefined"] ∧
    (websocketOnMessage (some (.obj [("print_job", .obj [])]))
        (Page.initial blankDom)).page.statusMessages
      = ["Received print job for printer: undefined"] ∧
    (websocketOnMessage (some .null) (Page.initial blankDom)).result = .error .typeError ∧
    (websocketOnMessage none (Page.initial blankDom)).result = .error .syntaxError := by
  refine ⟨by decide, by decide, rfl, rfl⟩

/-- C8, amended: for every frame that parses to a JSON value other than
`null` whose `print_job` member is missing or falsy, the message handler is
a no-op: the page is unchanged, nothing is issued and no error is raised. -/
theorem stream_handler_ignores_falsy_print_job (data : JSValue) (p : Page)
    (hr : readable data = true) (hf : truthy (member data "print_job") = false) :
    websocketOnMessage (some data) p = { page := p, log := [], result := .ok () } :=
  websocketOnMessage_skip data (member data "print_job") p (getProp_readable data _ hr) hf

theorem stream_handler_ignores_falsy_print_job_witness :
    websocketOnMessage (some (.arr [.str "print_job"])) (Page.initial blankDom)
        = { page := Page.initial blankDom, log := [], result := .ok () } ∧
    websocketOnMessage (some (.obj [("print_job", .null)])) (Page.initial blankDom)
        = { page := Page.initial blankDom, log := [], result := .ok () } :=
  ⟨stream_handler_ignores_falsy_print_job (.arr [.str "print_job"]) (Page.initial blankDom)
      rfl rfl,
   stream_handler_ignores_falsy_print_job (.obj [("print_job", .null)]) (Page.initial blankDom)
      rfl rfl⟩

/-- C9: once `token` is not `null`, it is not `null` after any sequence of
events: login submits and responses, accepted or refused or failed, printer
listings, job submissions and their responses, stream messages. -/
theorem token_never_absent_again (s s2 : Sys) (evs : List Event) (log : List (Page × Effect))
    (h : s.page.token ≠ .null) (hrun : run s evs = some (s2, log)) :
    s2.page.token ≠ .null :=
  run_token_present evs s s2 log h hrun

theorem token_never_absent_again_witness :
    ∃ s2 log,
      run { page := { Page.initial blankDom with token := .str "T1" },
            sockets := 1, awaitingLogin := 1, awaitingPrinters := 1, awaitingPrint := 0 }
          [.loginSubmit "bob" "x", .loginResponse (.ok refusalDoc),
           .loginResponse (.error .syntaxError), .streamMessage none,
           .printersResponse (.ok .null), .printSubmit "p1" "http://files/a.pdf" "1",
           .printResponse (.ok .null)]
        = some (s2, log) ∧
      s2.page.token ≠ .null :=
  ⟨_, _, rfl,
   token_never_absent_again
     { page := { Page.initial blankDom with token := .str "T1" },
       sockets := 1, awaitingLogin := 1, awaitingPrinters := 1, awaitingPrint := 0 } _
     [.loginSubmit "bob" "x", .loginResponse (.ok refusalDoc),
      .loginResponse (.error .syntaxError), .streamMessage none,
      .printersResponse (.ok .null), .printSubmit "p1" "http://files/a.pdf" "1",
      .printResponse (.ok .null)] _
     (fun h => JSValue.noConfusion h) rfl⟩

/-- C10, as stated, fails: when the login form is submitted twice before the
first response arrives and both responses carry a token, two sockets are
opened. -/
theorem two_sockets_opened :
    (run (Sys.initial blankDom)
        [.loginSubmit "alice" "pw", .loginSubmit "alice" "pw",
         .loginResponse (.ok (tokenDoc "T1")),
         .loginResponse (.ok (tokenDoc "T1"))]).map (fun r => (r.1.sockets, opened r.2))
      = some (2, 2) := by
  decide

/-- C10, amended: on every run from page load, the number of sockets opened
so far equals the number of accepted login responses handled so far (each
opens exactly one); so it is at most 1 as long as at most one login response
has been accepted. -/
theorem sockets_count_accepted_logins (d : Dom) (evs : List Event) (s : Sys)
    (log : List (Page × Effect)) (hrun : run (Sys.initial d) evs = some (s, log)) :
    s.sockets = successfulLogins evs ∧ opened log = successfulLogins evs ∧
      (successfulLogins evs ≤ 1 → s.sockets ≤ 1) := by
  obtain ⟨h1, h2⟩ := run_sockets evs (Sys.initial d) s log hrun
  have h0 : (Sys.initial d).sockets = 0 := rfl
  refine ⟨by omega, h2, fun h => by omega⟩

theorem sockets_count_accepted_logins_witness :
    ∃ s log,
      run (Sys.initial blankDom)
        [.loginSubmit "alice" "bad", .loginResponse (.ok refusalDoc),
         .loginSubmit "alice" "pw", .loginResponse (.ok (tokenDoc "T1")),
         .streamMessage (some (.obj [("print_job", .obj [("printer_id", .str "P3")])]))]
        = some (s, log) ∧
      s.sockets = 1 ∧ opened log = 1 :=
  ⟨_, _, rfl,
   (sockets_count_accepted_logins blankDom
      [.loginSubmit "alice" "bad", .loginResponse (.ok refusalDoc),
       .loginSubmit "alice" "pw", .loginResponse (.ok (tokenDoc "T1")),
       .streamMessage (some (.obj [("print_job", .obj [("printer_id", .str "P3")])]))]
      _ _ rfl).1,
   (sockets_count_accepted_logins blankDom
      [.loginSubmit "alice" "bad", .loginResponse (.ok refusalDoc),
       .loginSubmit "alice" "pw", .loginResponse (.ok (tokenDoc "T1")),
       .streamMessage (some (.obj [("print_job", .obj [("printer_id", .str "P3")])]))]
      _ _ rfl).2.1⟩

end Impressa
